import Mathlib

/-!
Verification development for `src/Wind_Data_Format.py` (class `Dataformatter`).

Tables are embedded as lists of per-row structures; numeric cells are exact
rationals. Timestamps are minutes since 1999-01-01T00:00; calendar fields
(day of year, hour of day) are computed from a Gregorian calendar model.
Python's in-place mutation of a caller-supplied DataFrame is made explicit:
every operation returns a pair `(post, result)` where `post` is the state of
the caller's table after the call and `result` is the returned table.
Derived values that the source computes with IEEE floats (`np.log`, float
division) are embedded as extended values (`FV`): a finite real, `+inf`,
`-inf`, or `NaN`, following the IEEE semantics of those operations.
-/

namespace Wind

/-- Timestamps: minutes since 1999-01-01T00:00 (the data at hand is later). -/
abbrev Minutes := Nat

/-- Gregorian leap-year rule (as used by pandas `dt.dayofyear`). -/
def isLeap (y : ℕ) : Bool :=
  (y % 4 == 0 && y % 100 != 0) || (y % 400 == 0)

/-- Number of days of a Gregorian year. -/
def daysInYear (y : ℕ) : ℕ :=
  if isLeap y then 366 else 365

/-- Fuel-driven scan turning a day offset from Jan 1 of year `y` into
`(year, 1-based day of year)`.  The fuel is ample: each step consumes at
least 365 days. -/
def yearAndDoyGo : ℕ → ℕ → ℕ → ℕ × ℕ
  | 0, y, d => (y, d + 1)
  | fuel + 1, y, d =>
    if d < daysInYear y then (y, d + 1)
    else yearAndDoyGo fuel (y + 1) (d - daysInYear y)

/-- `(year, 1-based day of year)` of a day count since 1999-01-01. -/
def yearAndDoy (y d : ℕ) : ℕ × ℕ := yearAndDoyGo (d + 1) y d

/-- pandas `dt.dayofyear` (1-based) of a timestamp. -/
def dayofyear (t : Minutes) : ℕ := (yearAndDoy 1999 (t / 1440)).2

/-- pandas `dt.hour` (hour of day) of a timestamp. -/
def hourOfDay (t : Minutes) : ℕ := t % 1440 / 60

/-- The derived hour-of-year column: `(dt.dayofyear - 1) * 24 + dt.hour`
(lines 36-37 and 91-92 of the source). -/
def hourOfYear (t : Minutes) : ℕ := (dayofyear t - 1) * 24 + hourOfDay t

/-- Month lengths of a (leap or non-leap) year. -/
def monthDays (leap : Bool) : List ℕ :=
  [31, if leap then 29 else 28, 31, 30, 31, 30, 31, 31, 30, 31, 30, 31]

/-- 0-based day-of-year of the first day of month `m` (1-based). -/
def doyOfMonthStart (leap : Bool) (m : ℕ) : ℕ :=
  ((monthDays leap).take (m - 1)).sum

/-- Day count since 1999-01-01 of Jan 1 of year `y` (for `y ≥ 1999`). -/
def yearStartDay (y : ℕ) : ℕ :=
  (List.range (y - 1999)).foldl (fun a k => a + daysInYear (1999 + k)) 0

/-- Day count since 1999-01-01 of the calendar date `y-m-d` (1-based `m`, `d`). -/
def dayOfDate (y m d : ℕ) : ℕ :=
  yearStartDay y + doyOfMonthStart (isLeap y) m + (d - 1)

/-- Minutes since the epoch of `y-m-d hh:00`. -/
def dateToMin (y m d hh : ℕ) : Minutes := dayOfDate y m d * 1440 + hh * 60

/-- Day of week, 0 = Sunday.  Day 0 (1999-01-01) was a Friday. -/
def dow (day : ℕ) : ℕ := (day + 5) % 7

/-- Day count of the `n`-th Sunday (1-based `n`) of month `m` of year `y`. -/
def nthSundayDay (y m n : ℕ) : ℕ :=
  let d0 := dayOfDate y m 1
  d0 + (7 - dow d0) % 7 + 7 * (n - 1)

/-- Day count of the last Sunday of month `m` of year `y`. -/
def lastSundayDay (y m : ℕ) : ℕ :=
  let dl := dayOfDate y m ((monthDays (isLeap y)).getD (m - 1) 31)
  dl - dow dl

/-- UTC minute at which US DST starts in year `y` (02:00 local standard time;
second Sunday of March from 2007 on, first Sunday of April before). -/
def dstStartMin (y : ℕ) : Minutes :=
  (if 2007 ≤ y then nthSundayDay y 3 2 else nthSundayDay y 4 1) * 1440 + 540

/-- UTC minute at which US DST ends in year `y` (02:00 local daylight time;
first Sunday of November from 2007 on, last Sunday of October before). -/
def dstEndMin (y : ℕ) : Minutes :=
  (if 2007 ≤ y then nthSundayDay y 11 1 else lastSundayDay y 10) * 1440 + 480

/-- Whether US/Mountain daylight-saving time is in effect at UTC instant `t`. -/
def inMountainDST (t : Minutes) : Bool :=
  let y := (yearAndDoy 1999 (t / 1440)).1
  dstStartMin y ≤ t && t < dstEndMin y

/-- Minutes that US/Mountain runs behind UTC at UTC instant `t`
(420 = MST, 360 = MDT), per the IANA rules used by `dt.tz_convert`. -/
def mountainOffsetMin (t : Minutes) : ℕ :=
  if inMountainDST t then 360 else 420

/-- Clock value displayed in US/Mountain for the UTC instant `t`
(`dt.tz_convert('US/Mountain')`, line 90). -/
def tzConvertMountain (t : Minutes) : Minutes := t - mountainOffsetMin t

/-- Timezone annotations a pandas datetime column can carry here. -/
inductive Tz
  | utc
  | mountain
deriving DecidableEq

/-- pandas dtypes relevant to the `Timestamp` column. -/
inductive Dtype
  | datetime64
  | object
deriving DecidableEq

/-! ## Resampling (`hourly_format`, lines 21-39; `hour3_format`, lines 123-132) -/

/-- An input row for the resamplers: a timestamp plus one rational value per
numeric column (columns indexed by an arbitrary type `ι`). -/
structure TRow (ι : Type) where
  ts : Minutes
  vals : ι → ℚ

/-- A resampled row: a bucket-start timestamp plus either one mean per column
or, for a bucket containing no observations, an all-missing row. -/
structure BRow (ι : Type) where
  ts : Minutes
  vals : Option (ι → ℚ)

/-- The caller-visible table handed to a resampler: the `Timestamp` column's
dtype, whether `Timestamp` has been moved to the index, and the rows. -/
structure RawTable (ι : Type) where
  tsDtype : Dtype
  tsIsIndex : Bool
  rows : List (TRow ι)

/-- Start of the width-`w` bucket containing `t` (buckets are anchored at the
epoch; since `w` divides a day for the widths used, this agrees with pandas'
`origin='start_day'` alignment to absolute clock boundaries). -/
def bucketOf (w t : Minutes) : Minutes := t / w * w

/-- The aggregated output row of the bucket starting at `b`: the arithmetic
mean, per column, of the input rows with timestamp in `[b, b + w)`, or an
all-missing row if no input row falls in that interval. -/
def bucketRow (w : ℕ) {ι : Type} (rows : List (TRow ι)) (b : Minutes) : BRow ι :=
  let inb := rows.filter (fun x => decide (b ≤ x.ts ∧ x.ts < b + w))
  { ts := b
    vals :=
      if inb.isEmpty then none
      else some (fun i => ((inb.map (fun x => x.vals i)).sum) / inb.length) }

/-- `df.resample(...).mean()`: one output row per width-`w` bucket from the
bucket of the earliest timestamp to the bucket of the latest, each numeric
column holding the arithmetic mean of the input rows with timestamp in
`[bucket, bucket + w)`, and `none` (all columns NaN) for an empty bucket. -/
def resampleMean (w : ℕ) {ι : Type} (rows : List (TRow ι)) : List (BRow ι) :=
  match rows with
  | [] => []
  | r :: rs =>
    let lo := bucketOf w (List.foldl min r.ts (rs.map TRow.ts))
    let hi := bucketOf w (List.foldl max r.ts (rs.map TRow.ts))
    (List.range ((hi - lo) / w + 1)).map (fun k => bucketRow w (r :: rs) (lo + k * w))

/-- An output row of `hourly_format`: bucket timestamp, derived hour-of-year
column, and the per-column means. -/
structure HRow (ι : Type) where
  ts : Minutes
  hour : ℕ
  vals : Option (ι → ℚ)

/-- The table returned by `hourly_format`, with the timezone annotation its
`Timestamp` column carries. -/
structure HTable (ι : Type) where
  tsTag : Option Tz
  rows : List (HRow ι)

/-- `hourly_format` (lines 21-39).  Asserts the `Timestamp` dtype, moves
`Timestamp` to the index on the caller's table (the mutation the source
performs via `set_index(inplace=True)`), resamples to 1-hour buckets,
re-interprets the bucket timestamps as UTC (`pd.to_datetime(..., utc=True)`;
clock values of the naive column are unchanged), derives the hour-of-year
column, and strips the timezone annotation (`dt.tz_localize(None)`).
Returns (caller's table after the call, result). -/
def hourly_format {ι : Type} (t : RawTable ι) :
    RawTable ι × Except String (HTable ι) :=
  if t.tsDtype = Dtype.datetime64 then
    let post : RawTable ι := { t with tsIsIndex := true }
    let hourly0 : List (BRow ι) := resampleMean 60 t.rows
    let utcTagged : HTable ι :=
      { tsTag := some Tz.utc
        rows := hourly0.map (fun r => { ts := r.ts, hour := hourOfYear r.ts, vals := r.vals }) }
    (post, Except.ok { utcTagged with tsTag := none })
  else
    (t, Except.error "Timestamp is not a datetime object")

/-- `hour3_format` (lines 123-132): same assertion and index mutation, then
`resample('6h').mean()` — a 6-hour bucket despite the function's name —
with no hour column and no timezone step. -/
def hour3_format {ι : Type} (t : RawTable ι) :
    RawTable ι × Except String (List (BRow ι)) :=
  if t.tsDtype = Dtype.datetime64 then
    ({ t with tsIsIndex := true }, Except.ok (resampleMean 360 t.rows))
  else
    (t, Except.error "Timestamp is not a datetime object")

/-! ## MET sensor fusion (`adjusted_wind_helper`, lines 41-57;
`adjust_wind_met`, lines 59-77) -/

/-- The static height registry `self.heights` (line 18). -/
def heights : List (String × List ℚ) :=
  [("MET", [59.1, 46]), ("Lidar", [46, 40])]

/-- One row of a MET table: the 57.2m direction sensor, the east- and
southwest-facing speed sensors at 59.1m and 46m, the 2m pressure column,
and the two derived adjusted-speed columns (`none` until created). -/
structure MetRow where
  dir57 : ℚ
  spd591E : ℚ
  spd591SW : ℚ
  spd46E : ℚ
  spd46SW : ℚ
  pres2m : ℚ
  adj591 : Option ℚ
  adj46 : Option ℚ
deriving DecidableEq

/-- `adjusted_wind_helper` (lines 41-57): select the east sensor for
directions in [30, 60], the southwest sensor for directions in [255, 285],
and the mean of the two otherwise. -/
def adjusted_wind_helper (wdir east sw : ℚ) : ℚ :=
  if 30 ≤ wdir ∧ wdir ≤ 60 then east
  else if 255 ≤ wdir ∧ wdir ≤ 285 then sw
  else (east + sw) / 2

/-- `adjust_wind_met` (lines 59-77): for each configured MET height (59.1 and
46) add the adjusted-speed column driven by the 57.2m direction sensor, then
divide the pressure column by 10.  The source assigns the new columns and the
rescaled pressure onto the caller's frame and returns that same frame, so the
post-call state of the argument equals the returned table. -/
def adjust_wind_met (t : List MetRow) : List MetRow × List MetRow :=
  let r :=
    t.map (fun row =>
      { row with
        adj591 := some (adjusted_wind_helper row.dir57 row.spd591E row.spd591SW)
        adj46 := some (adjusted_wind_helper row.dir57 row.spd46E row.spd46SW)
        pres2m := row.pres2m / 10 })
  (r, r)

/-! ## ERA5 formatter (`format_era5`, lines 79-98) -/

/-- One row of an ERA5 table: the timestamp column's clock value (interpreted
per the table's timezone tag), the derived hour column (`none` until
created), and all remaining columns abstracted as a payload. -/
structure Era5Row (α : Type) where
  ts : Minutes
  hour : Option ℕ
  payload : α
deriving DecidableEq

/-- An ERA5-style table: name and timezone tag of its timestamp column, plus
rows. -/
structure Era5Table (α : Type) where
  tsName : String
  tsTag : Option Tz
  rows : List (Era5Row α)
deriving DecidableEq

/-- Clock value, in the US/Mountain zone, of 2000-01-01 00:00:00 — the
truncation boundary of `format_era5` (line 94). -/
def cutoff2000 : Minutes := dateToMin 2000 1 1 0

/-- The per-row effect of lines 89-92 of `format_era5` on a naive-UTC row:
the timestamp column is parsed as UTC (clock unchanged), converted to
US/Mountain, and the hour-of-year column is computed from the converted
clock value. -/
def era5Convert {α : Type} (r : Era5Row α) : Era5Row α :=
  { r with
    ts := tzConvertMountain r.ts
    hour := some (hourOfYear (tzConvertMountain r.ts)) }

/-- `format_era5` (lines 79-98), for a naive (timezone-untagged) input table:
parse the `'Date/time [UTC]'` column as UTC, convert it to US/Mountain, and
add the hour column — all three assignments land on the caller's table
(`post`).  Then, on a copy, keep only rows with converted timestamp on or
after 2000-01-01 00:00:00, strip the timezone annotation, and rename the
timestamp column to `'Timestamp'`. -/
def format_era5 {α : Type} (t : Era5Table α) : Era5Table α × Era5Table α :=
  let converted := t.rows.map era5Convert
  let post : Era5Table α := { t with tsTag := some Tz.mountain, rows := converted }
  let kept := converted.filter (fun r => decide (cutoff2000 ≤ r.ts))
  (post, { tsName := "Timestamp", tsTag := none, rows := kept })

/-! ## Date-range filter (`concurrent_data`, lines 100-111) -/

/-- `concurrent_data` (lines 100-111): keep the rows whose `Timestamp` lies
in `[start_date, end_date]`, both ends inclusive, in their original order.
The input table is not modified. -/
def concurrent_data {α : Type} (t : Era5Table α) (start_date end_date : Minutes) :
    Era5Table α × Era5Table α :=
  (t, { t with
        rows := t.rows.filter (fun r => decide (start_date ≤ r.ts ∧ r.ts ≤ end_date)) })

/-! ## Wind shear (`wind_shear`, lines 113-121) -/

/-- An IEEE-style extended float with an exactly representable rational
payload: the value of a float expression that has not yet passed through a
transcendental function. -/
inductive QV
  | val (q : ℚ)
  | pinf
  | ninf
  | nan

/-- An IEEE-style extended value whose finite payload is a real number. -/
inductive FV
  | val (x : ℝ)
  | pinf
  | ninf
  | nan

/-- Whether an extended value is an infinity or NaN. -/
def FV.isNonFinite : FV → Bool
  | .val _ => false
  | _ => true

/-- IEEE float division of two finite values: `a / 0` is `±inf` for
`a ≠ 0` and `NaN` for `a = 0`. -/
def fdivQ (a b : ℚ) : QV :=
  if b = 0 then
    if 0 < a then QV.pinf else if a < 0 then QV.ninf else QV.nan
  else QV.val (a / b)

/-- `np.log` on an extended value: finite positive arguments give the real
logarithm, `log 0 = -inf`, the log of a negative value is `NaN`,
`log (+inf) = +inf`, and `-inf`/`NaN` give `NaN`. -/
noncomputable def flogQ : QV → FV
  | .val q => if 0 < q then FV.val (Real.log (q : ℝ)) else if q = 0 then FV.ninf else FV.nan
  | .pinf => FV.pinf
  | .ninf => FV.nan
  | .nan => FV.nan

/-- IEEE division of an extended value by a positive finite constant (the
denominator `np.log(102/46)` of line 120 is positive and finite). -/
noncomputable def fdivByPos : FV → ℝ → FV
  | .val x, c => FV.val (x / c)
  | .pinf, _ => FV.pinf
  | .ninf, _ => FV.ninf
  | .nan, _ => FV.nan

/-- The shear value of one lidar row (line 120):
`np.log(spd102 / spd46) / np.log(102 / 46)` under IEEE semantics. -/
noncomputable def shearOf (s102 s46 : ℚ) : FV :=
  fdivByPos (flogQ (fdivQ s102 s46)) (Real.log ((102 : ℝ) / 46))

/-- One row of a lidar table: timestamp, the 102m and 46m speeds, and the
derived shear column (`none` until created). -/
structure LidarRow where
  ts : Minutes
  spd102 : ℚ
  spd46 : ℚ
  shear : Option FV

/-- `wind_shear` (lines 113-121): the shear column is assigned onto the
caller's table (`post`); the returned table is the two-column
`(Timestamp, shear)` projection. -/
noncomputable def wind_shear (t : List LidarRow) :
    List LidarRow × List (Minutes × FV) :=
  (t.map (fun r => { r with shear := some (shearOf r.spd102 r.spd46) }),
   t.map (fun r => (r.ts, shearOf r.spd102 r.spd46)))

/-! ## Label rescaler (`scale_training_data`, lines 134-151) -/

/-- One row of a training table: the `'adjusted_wind_speed_59.1'` column plus
all other columns abstracted as a payload. -/
structure ScaleRow (α : Type) where
  ws59 : ℚ
  payload : α
deriving DecidableEq

/-- The `'adjusted_wind_speed_59.1'` column of a table. -/
def ws59Col {α : Type} (t : List (ScaleRow α)) : List ℚ := t.map ScaleRow.ws59

/-- `np.mean` of a column. -/
def listMean (xs : List ℚ) : ℚ := xs.sum / xs.length

/-- `np.std(xs) ^ 2`: the population variance (`ddof = 0`). -/
def listVarPop (xs : List ℚ) : ℚ :=
  ((xs.map (fun x => (x - listMean xs) ^ 2)).sum) / xs.length

/-- `high_threshold = mean + std` (line 140) as a real number
(`std = np.std` is the square root of the population variance). -/
noncomputable def highThreshold {α : Type} (t : List (ScaleRow α)) : ℝ :=
  (listMean (ws59Col t) : ℝ) + Real.sqrt (listVarPop (ws59Col t) : ℝ)

/-- `mid_threshold = mean - std` (line 141) as a real number. -/
noncomputable def midThreshold {α : Type} (t : List (ScaleRow α)) : ℝ :=
  (listMean (ws59Col t) : ℝ) - Real.sqrt (listVarPop (ws59Col t) : ℝ)

/-- Decidable form of `mean + std < x` for `std = √v`, `0 ≤ v`:
`x` exceeds the mean and the squared deviation exceeds the variance
(`highSel_eq_true_iff` below proves the equivalence). -/
def highSel (x m v : ℚ) : Bool := decide (m < x ∧ v < (x - m) ^ 2)

/-- Decidable form of `x < mean - std` (line 146's `mid_ix` mask; despite the
name it selects the low tail). -/
def lowSel (x m v : ℚ) : Bool := decide (x < m ∧ v < (m - x) ^ 2)

/-- `scale_training_data` (lines 134-151): compute the column's mean and
population standard deviation, then on a copy multiply the rows above
`mean + std` by `scale_up` and the rows below `mean - std` by `scale_mid`
(both masks computed from the original values).  Returns
(caller's table after the call — unchanged, the scaled copy). -/
def scale_training_data {α : Type} (t : List (ScaleRow α)) (scale_up scale_mid : ℚ) :
    List (ScaleRow α) × List (ScaleRow α) :=
  let m := listMean (ws59Col t)
  let v := listVarPop (ws59Col t)
  let scaled := t.map (fun r =>
    let r1 := if highSel r.ws59 m v then { r with ws59 := r.ws59 * scale_up } else r
    if lowSel r.ws59 m v then { r1 with ws59 := r1.ws59 * scale_mid } else r1)
  (t, scaled)

/-! ## Helper lemmas -/

/-- A map whose function fixes every member of the list is the identity. -/
theorem map_eq_self_of_mem {α : Type} {l : List α} {f : α → α}
    (h : ∀ a ∈ l, f a = a) : l.map f = l := by
  induction l with
  | nil => rfl
  | cons a l ih =>
    simp only [List.map_cons, h a (by simp), ih (fun b hb => h b (by simp [hb]))]

/-- Every row of `resampleMean w rows` starts on a `w`-aligned boundary, is
all-missing exactly when no input row falls in `[ts, ts + w)`, and otherwise
holds, in every column, the arithmetic mean of the input rows falling in
that interval. -/
theorem resampleMean_mem {ι : Type} (w : ℕ) (rows : List (TRow ι)) (r : BRow ι)
    (hr : r ∈ resampleMean w rows) :
    r.ts % w = 0 ∧
    (r.vals = none ↔
      rows.filter (fun x => decide (r.ts ≤ x.ts ∧ x.ts < r.ts + w)) = []) ∧
    (∀ f, r.vals = some f → ∀ i,
      f i = ((rows.filter (fun x => decide (r.ts ≤ x.ts ∧ x.ts < r.ts + w))).map
              (fun x => x.vals i)).sum /
            ((rows.filter (fun x => decide (r.ts ≤ x.ts ∧ x.ts < r.ts + w))).length)) := by
  have hbucket : ∀ (rws : List (TRow ι)) (b : Minutes),
      ((bucketRow w rws b).vals = none ↔
        rws.filter (fun x => decide (b ≤ x.ts ∧ x.ts < b + w)) = []) ∧
      (∀ f, (bucketRow w rws b).vals = some f → ∀ i,
        f i = ((rws.filter (fun x => decide (b ≤ x.ts ∧ x.ts < b + w))).map
                (fun x => x.vals i)).sum /
              ((rws.filter (fun x => decide (b ≤ x.ts ∧ x.ts < b + w))).length)) := by
    intro rws b
    constructor
    · simp only [bucketRow]
      split
      · rename_i h
        exact iff_of_true rfl (List.isEmpty_iff.mp h)
      · rename_i h
        exact iff_of_false (by simp) (fun hnil => h (List.isEmpty_iff.mpr hnil))
    · intro f hf i
      simp only [bucketRow] at hf
      split at hf
      · exact absurd hf (by simp)
      · exact (congrFun (Option.some_inj.mp hf) i).symm
  match rows with
  | [] => simp [resampleMean] at hr
  | a :: as =>
    simp only [resampleMean] at hr
    obtain ⟨k, hk, rfl⟩ := List.mem_map.mp hr
    refine ⟨?_, (hbucket _ _).1, (hbucket _ _).2⟩
    show (bucketOf w (List.foldl min a.ts (as.map TRow.ts)) + k * w) % w = 0
    unfold bucketOf
    rw [← Nat.add_mul]
    exact Nat.mul_mod_left _ _

/-! ## C2: bucket widths, alignment, means, empty buckets -/

/-- C2.  On a datetime-typed table, the hourly variant is the 60-minute
resampler (plus the hour column) and the "3-hour" variant is the 360-minute
resampler; every resampled row starts on an absolute bucket boundary
(`ts % w = 0`, independent of the first observation), is all-missing exactly
when no input row falls in `[ts, ts + w)`, and otherwise each column is the
arithmetic mean of the input rows in that interval. -/
theorem claim2_resampling_buckets :
    ∀ (ι : Type) (t : RawTable ι), t.tsDtype = Dtype.datetime64 →
      ((hourly_format t).2 = Except.ok
        { tsTag := none
          rows := (resampleMean 60 t.rows).map
            (fun r => { ts := r.ts, hour := hourOfYear r.ts, vals := r.vals }) }) ∧
      ((hour3_format t).2 = Except.ok (resampleMean 360 t.rows)) ∧
      (∀ (w : ℕ), ∀ r ∈ resampleMean w t.rows,
        r.ts % w = 0 ∧
        (r.vals = none ↔
          t.rows.filter (fun x => decide (r.ts ≤ x.ts ∧ x.ts < r.ts + w)) = []) ∧
        (∀ f, r.vals = some f → ∀ i,
          f i = ((t.rows.filter (fun x => decide (r.ts ≤ x.ts ∧ x.ts < r.ts + w))).map
                  (fun x => x.vals i)).sum /
                ((t.rows.filter (fun x =>
                  decide (r.ts ≤ x.ts ∧ x.ts < r.ts + w))).length))) := by
  intro ι t h
  refine ⟨by simp [hourly_format, h], by simp [hour3_format, h], ?_⟩
  intro w r hr
  exact resampleMean_mem w t.rows r hr

/-- C2 witness: a two-row table whose first observation is at minute 90
(not on an hour boundary) resamples into a bucket starting at minute 60. -/
theorem claim2_witness :
    ((⟨Dtype.datetime64, false, [⟨90, fun _ => 4⟩, ⟨100, fun _ => 6⟩]⟩ :
        RawTable Unit).tsDtype = Dtype.datetime64) ∧
    (((resampleMean 60 (⟨Dtype.datetime64, false,
        [⟨90, fun _ => 4⟩, ⟨100, fun _ => 6⟩]⟩ :
        RawTable Unit).rows).get ⟨0, by simp [resampleMean]⟩).ts % 60 = 0) := by
  refine ⟨rfl, ?_⟩
  have h := (claim2_resampling_buckets Unit
    ⟨Dtype.datetime64, false, [⟨90, fun _ => 4⟩, ⟨100, fun _ => 6⟩]⟩ rfl).2.2 60
  exact (h _ (List.get_mem _ _ _)).1

/-! ## C3: hour-of-year derivation in the hourly variant -/

/-- C3.  The hourly variant computes the hour column as
`(dayofyear - 1) * 24 + hour-of-day` from the bucket timestamps (which the
UTC re-interpretation of the naive column leaves unchanged) and strips the
timezone annotation from the returned table; the formula sends
2021-01-01T00:00 to 0, 2021-01-02T03:00 to 27 and 2021-12-31T23:00 to 8759. -/
theorem claim3_hourly_hour_of_year :
    ∀ (ι : Type) (t : RawTable ι), t.tsDtype = Dtype.datetime64 →
      (∀ ht, (hourly_format t).2 = Except.ok ht →
        ht.tsTag = none ∧
        ht.rows.map HRow.ts = (resampleMean 60 t.rows).map BRow.ts ∧
        (∀ r ∈ ht.rows, r.hour = (dayofyear r.ts - 1) * 24 + hourOfDay r.ts)) ∧
      hourOfYear (dateToMin 2021 1 1 0) = 0 ∧
      hourOfYear (dateToMin 2021 1 2 3) = 27 ∧
      hourOfYear (dateToMin 2021 12 31 23) = 8759 := by
  intro ι t h
  refine ⟨?_, by decide, by decide, by decide⟩
  intro ht hok
  rw [hourly_format, if_pos h] at hok
  simp only [Except.ok.injEq] at hok
  subst hok
  refine ⟨rfl, by simp [List.map_map], ?_⟩
  intro r hr
  simp only [List.mem_map] at hr
  obtain ⟨a, _, rfl⟩ := hr
  rfl

/-- C3 witness: the hourly output of a concrete datetime-typed table has a
timezone-free timestamp column. -/
theorem claim3_witness :
    (hourly_format (⟨Dtype.datetime64, false, [⟨90, fun _ => 4⟩]⟩ :
      RawTable Unit)).2 = Except.ok
        { tsTag := none
          rows := (resampleMean 60 [(⟨90, fun _ => 4⟩ : TRow Unit)]).map
            (fun r => { ts := r.ts, hour := hourOfYear r.ts, vals := r.vals }) } ∧
    (∀ ht, (hourly_format (⟨Dtype.datetime64, false, [⟨90, fun _ => 4⟩]⟩ :
      RawTable Unit)).2 = Except.ok ht → ht.tsTag = none) := by
  constructor
  · rfl
  · intro ht hok
    exact ((claim3_hourly_hour_of_year Unit _ rfl).1 ht hok).1

/-! ## C4: the ERA5 formatter -/

/-- C4.  On a naive input table, `format_era5` converts the parsed-as-UTC
timestamps to US/Mountain, derives the hour column from the converted clock
(all on the caller's table), then keeps exactly the rows whose converted
timestamp is on or after 2000-01-01 00:00:00 Mountain (boundary inclusive),
strips the timezone annotation and renames the column to `Timestamp`; a row
converting to 1999-12-31 23:00 is dropped and one converting to exactly
2000-01-01 00:00 is retained. -/
theorem claim4_format_era5 :
    ∀ (α : Type) (t : Era5Table α), t.tsTag = none →
      ((format_era5 t).1 =
        { t with tsTag := some Tz.mountain, rows := t.rows.map era5Convert }) ∧
      ((format_era5 t).2.tsName = "Timestamp") ∧
      ((format_era5 t).2.tsTag = none) ∧
      ((format_era5 t).2.rows =
        (t.rows.map era5Convert).filter (fun r => decide (cutoff2000 ≤ r.ts))) ∧
      (∀ r ∈ t.rows,
        (era5Convert r ∈ (format_era5 t).2.rows ↔ cutoff2000 ≤ tzConvertMountain r.ts)) ∧
      (∀ r : Era5Row α, (era5Convert r).hour = some (hourOfYear (tzConvertMountain r.ts))) ∧
      (tzConvertMountain (dateToMin 2000 1 1 6) = dateToMin 1999 12 31 23) ∧
      (¬ cutoff2000 ≤ dateToMin 1999 12 31 23) ∧
      (tzConvertMountain (dateToMin 2000 1 1 7) = cutoff2000) := by
  intro α t h
  refine ⟨rfl, rfl, rfl, rfl, ?_, fun r => rfl, by decide, by decide, by decide⟩
  intro r hr
  constructor
  · intro hmem
    have := (List.mem_filter.mp hmem).2
    simpa [era5Convert] using this
  · intro hle
    refine List.mem_filter.mpr ⟨List.mem_map_of_mem era5Convert hr, ?_⟩
    simpa [era5Convert] using hle

/-- C4 witness: a two-row table straddling the 2000-01-01 Mountain boundary;
the earlier row (06:00 UTC, i.e. 23:00 Mountain on 1999-12-31) is dropped
and the 07:00 UTC row (exactly the boundary) is retained. -/
theorem claim4_witness :
    ((format_era5 (⟨"Date/time [UTC]", none,
        [⟨dateToMin 2000 1 1 6, none, ()⟩, ⟨dateToMin 2000 1 1 7, none, ()⟩]⟩ :
        Era5Table Unit)).2.tsName = "Timestamp") ∧
    (era5Convert (⟨dateToMin 2000 1 1 7, none, ()⟩ : Era5Row Unit) ∈
      (format_era5 (⟨"Date/time [UTC]", none,
        [⟨dateToMin 2000 1 1 6, none, ()⟩, ⟨dateToMin 2000 1 1 7, none, ()⟩]⟩ :
        Era5Table Unit)).2.rows) ∧
    ¬ (era5Convert (⟨dateToMin 2000 1 1 6, none, ()⟩ : Era5Row Unit) ∈
      (format_era5 (⟨"Date/time [UTC]", none,
        [⟨dateToMin 2000 1 1 6, none, ()⟩, ⟨dateToMin 2000 1 1 7, none, ()⟩]⟩ :
        Era5Table Unit)).2.rows) := by
  refine ⟨(claim4_format_era5 Unit _ rfl).2.1, ?_, ?_⟩
  · exact ((claim4_format_era5 Unit _ rfl).2.2.2.2.1 _ (by simp)).mpr (by decide)
  · intro hmem
    exact absurd (((claim4_format_era5 Unit _ rfl).2.2.2.2.1 _ (by simp)).mp hmem)
      (by decide)

/-! ## C1: directional sensor fusion -/

/-- C1.  For every MET row, `adjust_wind_met` fills the adjusted-speed column
for each configured height (59.1 and 46) from the single 57.2m direction
value: directions in [30, 60] select the east sensor, directions in
[255, 285] select the southwest sensor, and any other direction yields the
arithmetic mean of the two sensors; in particular direction 45 gives the
east value, 270 the southwest value, and 0 or 170 the mean. -/
theorem claim1_directional_fusion :
    ∀ t : List MetRow,
      ((adjust_wind_met t).2.length = t.length) ∧
      (∀ i (hi : i < t.length) (hio : i < (adjust_wind_met t).2.length),
        (adjust_wind_met t).2[i] =
          { t[i] with
            adj591 := some (adjusted_wind_helper t[i].dir57 t[i].spd591E t[i].spd591SW)
            adj46 := some (adjusted_wind_helper t[i].dir57 t[i].spd46E t[i].spd46SW)
            pres2m := t[i].pres2m / 10 }) ∧
      (∀ d east sw : ℚ, 30 ≤ d → d ≤ 60 → adjusted_wind_helper d east sw = east) ∧
      (∀ d east sw : ℚ, ¬(30 ≤ d ∧ d ≤ 60) → 255 ≤ d → d ≤ 285 →
        adjusted_wind_helper d east sw = sw) ∧
      (∀ d east sw : ℚ, ¬(30 ≤ d ∧ d ≤ 60) → ¬(255 ≤ d ∧ d ≤ 285) →
        adjusted_wind_helper d east sw = (east + sw) / 2) ∧
      (∀ east sw : ℚ,
        adjusted_wind_helper 45 east sw = east ∧
        adjusted_wind_helper 270 east sw = sw ∧
        adjusted_wind_helper 0 east sw = (east + sw) / 2 ∧
        adjusted_wind_helper 170 east sw = (east + sw) / 2) := by
  intro t
  refine ⟨by simp [adjust_wind_met], ?_, ?_, ?_, ?_, ?_⟩
  · intro i hi hio
    simp [adjust_wind_met]
  · intro d east sw h1 h2
    simp [adjusted_wind_helper, h1, h2]
  · intro d east sw h1 h2 h3
    simp [adjusted_wind_helper, h1, h2, h3]
  · intro d east sw h1 h2
    simp [adjusted_wind_helper, h1, h2]
  · intro east sw
    refine ⟨?_, ?_, ?_, ?_⟩ <;> norm_num [adjusted_wind_helper]

/-- C1 witness: the fusion rule evaluated at concrete directions. -/
theorem claim1_witness :
    adjusted_wind_helper 45 3 99 = 3 ∧ adjusted_wind_helper 280 3 99 = 99 ∧
    adjusted_wind_helper 170 3 99 = 51 := by
  refine ⟨(claim1_directional_fusion []).2.2.1 45 3 99 (by norm_num) (by norm_num),
    (claim1_directional_fusion []).2.2.2.1 280 3 99 (by norm_num) (by norm_num) (by norm_num),
    ((claim1_directional_fusion []).2.2.2.2.1 170 3 99 (by norm_num) (by norm_num)).trans
      (by norm_num)⟩

/-! ## C8: resampling precondition -/

/-- C8.  When the `Timestamp` column is not datetime-typed, both resamplers
fail with the assertion message (which names the offending field) before any
computation, leaving the caller's table unchanged. -/
theorem claim8_resample_precondition :
    ∀ (ι : Type) (t : RawTable ι), t.tsDtype ≠ Dtype.datetime64 →
      ((hourly_format t).1 = t) ∧
      ((hourly_format t).2 = Except.error "Timestamp is not a datetime object") ∧
      ((hour3_format t).1 = t) ∧
      ((hour3_format t).2 = Except.error "Timestamp is not a datetime object") ∧
      ("Timestamp is not a datetime object" = "Timestamp" ++ " is not a datetime object") := by
  intro ι t h
  refine ⟨?_, ?_, ?_, ?_, rfl⟩ <;> simp [hourly_format, hour3_format, h]

/-- C8 witness: a text-typed `Timestamp` column is rejected with the
assertion message and the table is untouched. -/
theorem claim8_witness :
    (hourly_format (⟨Dtype.object, false, []⟩ : RawTable Unit)).2 =
      Except.error "Timestamp is not a datetime object" ∧
    (hour3_format (⟨Dtype.object, false, []⟩ : RawTable Unit)).1 =
      (⟨Dtype.object, false, []⟩ : RawTable Unit) := by
  refine ⟨(claim8_resample_precondition Unit _ (by simp)).2.1,
    (claim8_resample_precondition Unit _ (by simp)).2.2.1⟩

/-! ## C9: date-range filter -/

/-- C9.  `concurrent_data` returns exactly the rows whose `Timestamp` lies in
`[start_date, end_date]`, inclusive at both ends, in their original order. -/
theorem claim9_concurrent_filter :
    ∀ (α : Type) (t : Era5Table α) (s e : Minutes),
      ((concurrent_data t s e).2.rows.Sublist t.rows) ∧
      (∀ r : Era5Row α,
        r ∈ (concurrent_data t s e).2.rows ↔ r ∈ t.rows ∧ s ≤ r.ts ∧ r.ts ≤ e) ∧
      (∀ r ∈ t.rows, s ≤ e → r.ts = s ∨ r.ts = e → r ∈ (concurrent_data t s e).2.rows) := by
  intro α t s e
  refine ⟨List.filter_sublist _, ?_, ?_⟩
  · intro r
    simp [concurrent_data, List.mem_filter]
  · intro r hr hse hb
    have hin : s ≤ r.ts ∧ r.ts ≤ e := by
      rcases hb with h | h
      · exact ⟨h.ge, h.le.trans hse⟩
      · exact ⟨hse.trans h.ge, h.le⟩
    simp only [concurrent_data, List.mem_filter, decide_eq_true_eq]
    exact ⟨hr, hin⟩

/-- C9 witness: a row timestamped exactly at the start boundary is kept. -/
theorem claim9_witness :
    (⟨5, none, ()⟩ : Era5Row Unit) ∈
      (concurrent_data (⟨"Timestamp", none, [⟨5, none, ()⟩, ⟨7, none, ()⟩, ⟨20, none, ()⟩]⟩ :
        Era5Table Unit) 5 7).2.rows := by
  exact (claim9_concurrent_filter Unit _ 5 7).2.2 _ (by simp) (by norm_num) (Or.inl rfl)

/-! ## C7: which operations mutate the caller's table -/

/-- C7 counterexample: `adjust_wind_met` does mutate the caller-supplied
table (the adjusted-speed columns are added and the pressure column is
divided by 10 in place), so the claim that it leaves its input unchanged is
false at this one-row table. -/
theorem claim7_counterexample :
    ¬ ((adjust_wind_met [⟨45, 10, 20, 7, 9, 1013, none, none⟩]).1 =
        [⟨45, 10, 20, 7, 9, 1013, none, none⟩]) := by
  intro h
  simp [adjust_wind_met] at h

/-- C7 amended.  Only `concurrent_data` and `scale_training_data` leave the
caller-supplied table unchanged; `adjust_wind_met`, `format_era5` and
`wind_shear` mutate it in place (`adjust_wind_met` returns the very table it
mutated; `format_era5` leaves the caller's table timezone-converted with the
hour column added; `wind_shear` leaves the shear column on the caller's
table), as the concrete inequalities show. -/
theorem claim7_amended_frame_effects :
    (∀ (α : Type) (t : Era5Table α) (s e : Minutes), (concurrent_data t s e).1 = t) ∧
    (∀ (α : Type) (t : List (ScaleRow α)) (up mid : ℚ),
      (scale_training_data t up mid).1 = t) ∧
    (∀ t : List MetRow, (adjust_wind_met t).1 = (adjust_wind_met t).2) ∧
    (∀ t : List LidarRow, (wind_shear t).1 =
      t.map (fun r => { r with shear := some (shearOf r.spd102 r.spd46) })) ∧
    (∀ (α : Type) (t : Era5Table α), (format_era5 t).1 =
      { t with tsTag := some Tz.mountain, rows := t.rows.map era5Convert }) ∧
    ((adjust_wind_met [⟨45, 10, 20, 7, 9, 1013, none, none⟩]).1 ≠
      [⟨45, 10, 20, 7, 9, 1013, none, none⟩]) ∧
    ((format_era5 (⟨"Date/time [UTC]", none, [⟨cutoff2000 + 420, none, ()⟩]⟩ :
        Era5Table Unit)).1 ≠
      (⟨"Date/time [UTC]", none, [⟨cutoff2000 + 420, none, ()⟩]⟩ : Era5Table Unit)) ∧
    (∀ r : LidarRow, r ∈ (wind_shear [⟨0, 10, 8, none⟩]).1 → r.shear ≠ none) := by
  refine ⟨fun α t s e => rfl, fun α t up mid => rfl, fun t => rfl, fun t => rfl,
    fun α t => rfl, by intro h; simp [adjust_wind_met] at h,
    by intro h; simp [format_era5, era5Convert] at h, ?_⟩
  intro r hr
  simp only [wind_shear, List.map_cons, List.map_nil, List.mem_singleton] at hr
  subst hr
  simp

/-! ## C5, C10: the label rescaler -/

/-- The population variance is nonnegative. -/
theorem listVarPop_nonneg (xs : List ℚ) : 0 ≤ listVarPop xs := by
  unfold listVarPop
  apply div_nonneg
  · apply List.sum_nonneg
    intro x hx
    obtain ⟨a, _, rfl⟩ := List.mem_map.mp hx
    positivity
  · positivity

/-- The high mask of line 145 selects exactly the rows above `mean + std`. -/
theorem highSel_eq_true_iff (x m v : ℚ) (hv : 0 ≤ v) :
    highSel x m v = true ↔ (m : ℝ) + Real.sqrt (v : ℝ) < (x : ℝ) := by
  unfold highSel
  rw [decide_eq_true_eq]
  constructor
  · rintro ⟨h1, h2⟩
    have h1' : (m : ℝ) < (x : ℝ) := by exact_mod_cast h1
    have h2' : (v : ℝ) < ((x : ℝ) - (m : ℝ)) ^ 2 := by
      have : ((v : ℚ) : ℝ) < (((x - m) ^ 2 : ℚ) : ℝ) := by exact_mod_cast h2
      push_cast at this
      linarith
    have := (Real.sqrt_lt' (by linarith : (0 : ℝ) < (x : ℝ) - (m : ℝ))).mpr h2'
    linarith
  · intro h
    have hs := Real.sqrt_nonneg ((v : ℚ) : ℝ)
    have h1' : (m : ℝ) < (x : ℝ) := by linarith
    have h2' : Real.sqrt (v : ℝ) < (x : ℝ) - (m : ℝ) := by linarith
    have h3 := (Real.sqrt_lt' (by linarith : (0 : ℝ) < (x : ℝ) - (m : ℝ))).mp h2'
    refine ⟨by exact_mod_cast h1', ?_⟩
    have : ((v : ℚ) : ℝ) < (((x - m) ^ 2 : ℚ) : ℝ) := by push_cast; linarith
    exact_mod_cast this

/-- The low mask of line 146 selects exactly the rows below `mean - std`. -/
theorem lowSel_eq_true_iff (x m v : ℚ) (hv : 0 ≤ v) :
    lowSel x m v = true ↔ (x : ℝ) < (m : ℝ) - Real.sqrt (v : ℝ) := by
  unfold lowSel
  rw [decide_eq_true_eq]
  constructor
  · rintro ⟨h1, h2⟩
    have h1' : (x : ℝ) < (m : ℝ) := by exact_mod_cast h1
    have h2' : (v : ℝ) < ((m : ℝ) - (x : ℝ)) ^ 2 := by
      have : ((v : ℚ) : ℝ) < (((m - x) ^ 2 : ℚ) : ℝ) := by exact_mod_cast h2
      push_cast at this
      linarith
    have := (Real.sqrt_lt' (by linarith : (0 : ℝ) < (m : ℝ) - (x : ℝ))).mpr h2'
    linarith
  · intro h
    have hs := Real.sqrt_nonneg ((v : ℚ) : ℝ)
    have h1' : (x : ℝ) < (m : ℝ) := by linarith
    have h2' : Real.sqrt (v : ℝ) < (m : ℝ) - (x : ℝ) := by linarith
    have h3 := (Real.sqrt_lt' (by linarith : (0 : ℝ) < (m : ℝ) - (x : ℝ))).mp h2'
    refine ⟨by exact_mod_cast h1', ?_⟩
    have : ((v : ℚ) : ℝ) < (((m - x) ^ 2 : ℚ) : ℝ) := by push_cast; linarith
    exact_mod_cast this

/-- The scaled value of one row given the column's mean and variance. -/
theorem scale_row_cases {α : Type} (r : ScaleRow α) (m v up mid : ℚ) (hv : 0 ≤ v) :
    (let r1 := if highSel r.ws59 m v then { r with ws59 := r.ws59 * up } else r
     if lowSel r.ws59 m v then { r1 with ws59 := r1.ws59 * mid } else r1) =
    (if (m : ℝ) + Real.sqrt (v : ℝ) < (r.ws59 : ℝ) then { r with ws59 := r.ws59 * up }
     else if (r.ws59 : ℝ) < (m : ℝ) - Real.sqrt (v : ℝ) then
       { r with ws59 := r.ws59 * mid }
     else r) := by
  have hs := Real.sqrt_nonneg ((v : ℚ) : ℝ)
  by_cases hH : highSel r.ws59 m v = true
  · have hH' := (highSel_eq_true_iff r.ws59 m v hv).mp hH
    have hLf : lowSel r.ws59 m v = false := by
      rw [← Bool.not_eq_true, lowSel_eq_true_iff r.ws59 m v hv]
      intro hc
      linarith
    simp only [hH, hLf, if_true, if_false, Bool.false_eq_true]
    rw [if_pos hH']
  · have hHfalse : highSel r.ws59 m v = false := by
      rw [← Bool.not_eq_true]
      exact hH
    have hHr : ¬ ((m : ℝ) + Real.sqrt (v : ℝ) < ((r.ws59 : ℚ) : ℝ)) := fun hc =>
      hH ((highSel_eq_true_iff r.ws59 m v hv).mpr hc)
    by_cases hL : lowSel r.ws59 m v = true
    · have hL' := (lowSel_eq_true_iff r.ws59 m v hv).mp hL
      simp only [hHfalse, hL, if_true, if_false, Bool.false_eq_true]
      rw [if_neg hHr, if_pos hL']
    · have hLfalse : lowSel r.ws59 m v = false := by
        rw [← Bool.not_eq_true]
        exact hL
      have hLr : ¬ (((r.ws59 : ℚ) : ℝ) < (m : ℝ) - Real.sqrt (v : ℝ)) := fun hc =>
        hL ((lowSel_eq_true_iff r.ws59 m v hv).mpr hc)
      simp only [hHfalse, hLfalse, Bool.false_eq_true, if_false]
      rw [if_neg hHr, if_neg hLr]

/-- C5.  `scale_training_data` computes the mean and population standard
deviation of the `adjusted_wind_speed_59.1` column; each output row is the
input row with that column multiplied by `scale_up` when it exceeds
`mean + std`, by `scale_mid` when it is below `mean - std`, and unchanged
when strictly between the thresholds; with `scale_mid = 1` and no row above
`mean + std` the output equals the input exactly. -/
theorem claim5_scale_training_data :
    ∀ (α : Type) (t : List (ScaleRow α)) (up mid : ℚ), t ≠ [] →
      ((scale_training_data t up mid).2.length = t.length) ∧
      (∀ i (hi : i < t.length) (hio : i < (scale_training_data t up mid).2.length),
        (scale_training_data t up mid).2[i] =
          (if highThreshold t < ((t[i].ws59 : ℚ) : ℝ) then
            { t[i] with ws59 := t[i].ws59 * up }
          else if ((t[i].ws59 : ℚ) : ℝ) < midThreshold t then
            { t[i] with ws59 := t[i].ws59 * mid }
          else t[i])) ∧
      ((mid = 1 ∧ ∀ r ∈ t, ((r.ws59 : ℚ) : ℝ) ≤ highThreshold t) →
        (scale_training_data t up mid).2 = t) := by
  intro α t up mid _
  have hv := listVarPop_nonneg (ws59Col t)
  refine ⟨by simp [scale_training_data], ?_, ?_⟩
  · intro i hi hio
    show (t.map _)[i] = _
    rw [List.getElem_map]
    exact scale_row_cases t[i] (listMean (ws59Col t)) (listVarPop (ws59Col t)) up mid hv
  · rintro ⟨rfl, hall⟩
    show t.map _ = t
    apply map_eq_self_of_mem
    intro r hr
    rw [scale_row_cases r (listMean (ws59Col t)) (listVarPop (ws59Col t)) up 1 hv]
    unfold highThreshold at hall
    rw [if_neg (not_lt.mpr (hall r hr))]
    split
    · cases r
      simp
    · rfl

/-- C5 witness: a one-row table (mean 3, std 0) with `scale_mid = 1` and no
row above `mean + std` is returned unchanged. -/
theorem claim5_witness :
    (([⟨3, ()⟩] : List (ScaleRow Unit)) ≠ []) ∧
    (scale_training_data ([⟨3, ()⟩] : List (ScaleRow Unit)) 5 1).2 =
      ([⟨3, ()⟩] : List (ScaleRow Unit)) := by
  refine ⟨by simp, ?_⟩
  refine (claim5_scale_training_data Unit [⟨3, ()⟩] 5 1 (by simp)).2.2 ⟨rfl, ?_⟩
  intro r hr
  rw [List.mem_singleton] at hr
  subst hr
  have h1 : listMean (ws59Col ([⟨3, ()⟩] : List (ScaleRow Unit))) = 3 := by
    norm_num [listMean, ws59Col]
  have h2 : listVarPop (ws59Col ([⟨3, ()⟩] : List (ScaleRow Unit))) = 0 := by
    norm_num [listVarPop, listMean, ws59Col]
  unfold highThreshold
  rw [h1, h2]
  norm_num

/-- C10.  `scale_training_data` never mutates its input, preserves row count,
order and every column other than `adjusted_wind_speed_59.1`, and a row
whose value equals exactly `mean + std` or exactly `mean - std` is left
unchanged (both selections are strict). -/
theorem claim10_scale_frame :
    ∀ (α : Type) (t : List (ScaleRow α)) (up mid : ℚ),
      ((scale_training_data t up mid).1 = t) ∧
      ((scale_training_data t up mid).2.length = t.length) ∧
      ((scale_training_data t up mid).2.map ScaleRow.payload = t.map ScaleRow.payload) ∧
      (∀ i (hi : i < t.length) (hio : i < (scale_training_data t up mid).2.length),
        (((t[i].ws59 : ℚ) : ℝ) = highThreshold t ∨ ((t[i].ws59 : ℚ) : ℝ) = midThreshold t) →
        (scale_training_data t up mid).2[i] = t[i]) := by
  intro α t up mid
  have hv := listVarPop_nonneg (ws59Col t)
  have hs := Real.sqrt_nonneg ((listVarPop (ws59Col t) : ℚ) : ℝ)
  refine ⟨rfl, by simp [scale_training_data], ?_, ?_⟩
  · show (t.map _).map _ = _
    rw [List.map_map]
    apply List.map_congr_left
    intro r _
    show ScaleRow.payload _ = _
    by_cases hH : highSel r.ws59 (listMean (ws59Col t)) (listVarPop (ws59Col t)) <;>
      by_cases hL : lowSel r.ws59 (listMean (ws59Col t)) (listVarPop (ws59Col t)) <;>
      simp [hH, hL]
  · intro i hi hio hth
    show (t.map _)[i] = _
    rw [List.getElem_map]
    rw [scale_row_cases t[i] (listMean (ws59Col t)) (listVarPop (ws59Col t)) up mid hv]
    unfold highThreshold midThreshold at hth
    rcases hth with h | h
    · rw [if_neg (by rw [h]; exact lt_irrefl _), if_neg (by rw [h]; intro hc; linarith)]
    · rw [if_neg (by rw [h]; intro hc; linarith), if_neg (by rw [h]; exact lt_irrefl _)]

/-- C10 witness: in the table with column values 0 and 2 (mean 1, std 1) the
row at exactly `mean + std = 2` is left unchanged even with large scale
factors. -/
theorem claim10_witness :
    (scale_training_data ([⟨0, ()⟩, ⟨2, ()⟩] : List (ScaleRow Unit)) 7 3).1 =
      ([⟨0, ()⟩, ⟨2, ()⟩] : List (ScaleRow Unit)) ∧
    (scale_training_data ([⟨0, ()⟩, ⟨2, ()⟩] : List (ScaleRow Unit)) 7 3).2.get
      ⟨1, by simp [scale_training_data]⟩ = (⟨2, ()⟩ : ScaleRow Unit) := by
  have hm : listMean (ws59Col ([⟨0, ()⟩, ⟨2, ()⟩] : List (ScaleRow Unit))) = 1 := by
    norm_num [listMean, ws59Col]
  have hvv : listVarPop (ws59Col ([⟨0, ()⟩, ⟨2, ()⟩] : List (ScaleRow Unit))) = 1 := by
    norm_num [listVarPop, listMean, ws59Col]
  refine ⟨(claim10_scale_frame Unit [⟨0, ()⟩, ⟨2, ()⟩] 7 3).1, ?_⟩
  have h := (claim10_scale_frame Unit [⟨0, ()⟩, ⟨2, ()⟩] 7 3).2.2.2 1 (by norm_num)
    (by simp [scale_training_data]) (Or.inl (by
      unfold highThreshold
      rw [hm, hvv]
      norm_num [Real.sqrt_one]))
  simpa using h

/-! ## C6: wind shear -/

/-- Two-sided Taylor bound on `log (5/4)` (true value 0.2231435...). -/
theorem log_five_quarters_bounds :
    0.2231 < Real.log ((5 : ℝ) / 4) ∧ Real.log ((5 : ℝ) / 4) < 0.2232 := by
  have hx : |(-(1 / 4) : ℝ)| < 1 := by
    rw [abs_neg, abs_of_pos] <;> norm_num
  have h := Real.abs_log_sub_add_sum_range_le hx 7
  rw [abs_neg, abs_of_pos (by norm_num : (0 : ℝ) < 1 / 4), abs_le] at h
  norm_num [Finset.sum_range_succ] at h
  constructor <;> linarith [h.1, h.2]

/-- Two-sided Taylor bound on `log (51/46)` (true value 0.1031845...). -/
theorem log_51_46_bounds :
    0.10318 < Real.log ((51 : ℝ) / 46) ∧ Real.log ((51 : ℝ) / 46) < 0.10319 := by
  have hx : |(-(5 / 46) : ℝ)| < 1 := by
    rw [abs_neg, abs_of_pos] <;> norm_num
  have h := Real.abs_log_sub_add_sum_range_le hx 5
  rw [abs_neg, abs_of_pos (by norm_num : (0 : ℝ) < 5 / 46), abs_le] at h
  norm_num [Finset.sum_range_succ] at h
  constructor <;> linarith [h.1, h.2]

/-- Two-sided bound on `log (51/23)`, the denominator `log (102/46)` of the
shear formula (true value 0.7963314...). -/
theorem log_51_23_bounds :
    0.79632 < Real.log ((51 : ℝ) / 23) ∧ Real.log ((51 : ℝ) / 23) < 0.79634 := by
  have h2 : ((51 : ℝ) / 23) = 2 * (51 / 46) := by norm_num
  rw [h2, Real.log_mul (by norm_num) (by norm_num)]
  have g1 := Real.log_two_gt_d9
  have g2 := Real.log_two_lt_d9
  have h46 := log_51_46_bounds
  constructor <;> linarith [h46.1, h46.2]

/-- The shear ratio `log (5/4) / log (51/23)` lies in (0.2801, 0.2803)
(true value 0.2802144...). -/
theorem shear_ratio_bounds :
    0.2801 < Real.log ((5 : ℝ) / 4) / Real.log ((51 : ℝ) / 23) ∧
    Real.log ((5 : ℝ) / 4) / Real.log ((51 : ℝ) / 23) < 0.2803 := by
  have h54 := log_five_quarters_bounds
  have h5123 := log_51_23_bounds
  have hpos : (0 : ℝ) < Real.log ((51 : ℝ) / 23) := by linarith [h5123.1]
  constructor
  · rw [lt_div_iff hpos]
    linarith [h54.1, h5123.2]
  · rw [div_lt_iff hpos]
    linarith [h54.2, h5123.1]

/-- The shear of a row with two positive speeds is the finite value
`log (s102 / s46) / log (102/46)`. -/
theorem shearOf_pos (s102 s46 : ℚ) (h102 : 0 < s102) (h46 : 0 < s46) :
    shearOf s102 s46 =
      FV.val (Real.log ((s102 / s46 : ℚ) : ℝ) / Real.log ((102 : ℝ) / 46)) := by
  simp only [shearOf, fdivQ]
  rw [if_neg (ne_of_gt h46)]
  simp only [flogQ]
  rw [if_pos (div_pos h102 h46)]
  rfl

/-- C6 counterexample: the claim's concrete value is wrong.  The shear of
the row with speeds 10 and 8 is the finite value
`log (10/8) / log (102/46) = 0.28021...`, which is NOT within `1e-3` of the
claimed 0.2786; moreover a row with two negative speeds (both "negative
input speeds") produces a finite value, not a non-finite one. -/
theorem claim6_counterexample :
    (shearOf 10 8 =
      FV.val (Real.log (((10 : ℚ) / 8 : ℚ) : ℝ) / Real.log ((102 : ℝ) / 46))) ∧
    (1 / 1000 < |Real.log (((10 : ℚ) / 8 : ℚ) : ℝ) / Real.log ((102 : ℝ) / 46) - 0.2786|) ∧
    (shearOf (-10) (-8) =
      FV.val (Real.log ((((-10) : ℚ) / (-8) : ℚ) : ℝ) / Real.log ((102 : ℝ) / 46))) := by
  have hcast : (((10 : ℚ) / 8 : ℚ) : ℝ) = 5 / 4 := by norm_num
  have hden : ((102 : ℝ) / 46) = 51 / 23 := by norm_num
  have hb := shear_ratio_bounds
  refine ⟨shearOf_pos 10 8 (by norm_num) (by norm_num), ?_, ?_⟩
  · rw [hcast, hden, abs_of_pos (by linarith [hb.1])]
    linarith [hb.1]
  · simp only [shearOf, fdivQ]
    rw [if_neg (by norm_num : ¬((-8 : ℚ) = 0))]
    simp only [flogQ]
    rw [if_pos (by norm_num : (0 : ℚ) < (-10) / (-8))]
    rfl

/-- C6 amended.  `wind_shear` returns the two-column (Timestamp, shear)
table with `shear = log (s102/s46) / log (102/46)`; the concrete row
(10, 8) gives approximately 0.2802 (not 0.2786) within `1e-3`; a zero
`s46` with positive `s102` gives `+inf`; a zero or negative speed yields a
non-finite propagated value UNLESS both speeds are negative, in which case
the ratio is positive and the shear is the finite value of the formula. -/
theorem claim6_amended_wind_shear :
    (∀ t : List LidarRow,
      (wind_shear t).2 = t.map (fun r => (r.ts, shearOf r.spd102 r.spd46))) ∧
    (∀ s102 s46 : ℚ, 0 < s102 → 0 < s46 →
      shearOf s102 s46 =
        FV.val (Real.log ((s102 / s46 : ℚ) : ℝ) / Real.log ((102 : ℝ) / 46))) ∧
    (shearOf 10 8 =
      FV.val (Real.log (((10 : ℚ) / 8 : ℚ) : ℝ) / Real.log ((102 : ℝ) / 46))) ∧
    (|Real.log (((10 : ℚ) / 8 : ℚ) : ℝ) / Real.log ((102 : ℝ) / 46) - 0.2802| < 1 / 1000) ∧
    (∀ s102 : ℚ, 0 < s102 → shearOf s102 0 = FV.pinf) ∧
    (∀ s102 s46 : ℚ, (s102 ≤ 0 ∨ s46 ≤ 0) → ¬(s102 < 0 ∧ s46 < 0) →
      FV.isNonFinite (shearOf s102 s46) = true) ∧
    (∀ s102 s46 : ℚ, s102 < 0 → s46 < 0 →
      shearOf s102 s46 =
        FV.val (Real.log ((s102 / s46 : ℚ) : ℝ) / Real.log ((102 : ℝ) / 46))) := by
  have hcast : (((10 : ℚ) / 8 : ℚ) : ℝ) = 5 / 4 := by norm_num
  have hden : ((102 : ℝ) / 46) = 51 / 23 := by norm_num
  have hb := shear_ratio_bounds
  refine ⟨fun t => rfl, shearOf_pos, shearOf_pos 10 8 (by norm_num) (by norm_num),
    ?_, ?_, ?_, ?_⟩
  · rw [hcast, hden, abs_lt]
    constructor <;> linarith [hb.1, hb.2]
  · intro s102 h
    simp only [shearOf, fdivQ]
    rw [if_pos trivial, if_pos h]
    rfl
  · intro s102 s46 hle hnb
    rcases lt_trichotomy s46 0 with h46 | h46 | h46
    · have h102 : 0 ≤ s102 := not_lt.mp (fun hc => hnb ⟨hc, h46⟩)
      rcases eq_or_lt_of_le h102 with he | hgt
      · simp only [shearOf, fdivQ]
        rw [if_neg (ne_of_lt h46)]
        simp only [flogQ]
        rw [← he, zero_div, if_neg (lt_irrefl 0), if_pos rfl]
        rfl
      · have hr : s102 / s46 < 0 := div_neg_of_pos_of_neg hgt h46
        simp only [shearOf, fdivQ]
        rw [if_neg (ne_of_lt h46)]
        simp only [flogQ]
        rw [if_neg (not_lt.mpr hr.le), if_neg (ne_of_lt hr)]
        rfl
    · subst h46
      simp only [shearOf, fdivQ]
      rw [if_pos trivial]
      rcases lt_trichotomy s102 0 with h1 | h1 | h1
      · rw [if_neg (not_lt.mpr h1.le), if_pos h1]
        rfl
      · subst h1
        rw [if_neg (lt_irrefl 0), if_neg (lt_irrefl 0)]
        rfl
      · rw [if_pos h1]
        rfl
    · have h102 : s102 ≤ 0 := hle.resolve_right (not_le.mpr h46)
      rcases eq_or_lt_of_le h102 with he | hlt
      · simp only [shearOf, fdivQ]
        rw [if_neg (ne_of_gt h46)]
        simp only [flogQ]
        rw [he, zero_div, if_neg (lt_irrefl 0), if_pos rfl]
        rfl
      · have hr : s102 / s46 < 0 := div_neg_of_neg_of_pos hlt h46
        simp only [shearOf, fdivQ]
        rw [if_neg (ne_of_gt h46)]
        simp only [flogQ]
        rw [if_neg (not_lt.mpr hr.le), if_neg (ne_of_lt hr)]
        rfl
  · intro s102 s46 h1 h2
    have hr : 0 < s102 / s46 := div_pos_iff.mpr (Or.inr ⟨h1, h2⟩)
    simp only [shearOf, fdivQ]
    rw [if_neg (ne_of_lt h2)]
    simp only [flogQ]
    rw [if_pos hr]
    rfl

/-- C6 witness: non-finite results at concrete faulty-sensor rows. -/
theorem claim6_witness :
    shearOf 4 0 = FV.pinf ∧ FV.isNonFinite (shearOf 0 5) = true := by
  refine ⟨claim6_amended_wind_shear.2.2.2.2.1 4 (by norm_num),
    claim6_amended_wind_shear.2.2.2.2.2.1 0 5 (Or.inl le_rfl) (by norm_num)⟩

/-- C7 witness: the non-mutating operations evaluated at concrete tables. -/
theorem claim7_witness :
    (concurrent_data (⟨"Timestamp", none, [⟨5, none, ()⟩]⟩ : Era5Table Unit) 0 9).1 =
      (⟨"Timestamp", none, [⟨5, none, ()⟩]⟩ : Era5Table Unit) ∧
    (scale_training_data ([⟨3, ()⟩] : List (ScaleRow Unit)) 7 1).1 =
      ([⟨3, ()⟩] : List (ScaleRow Unit)) := by
  exact ⟨claim7_amended_frame_effects.1 Unit _ 0 9,
    claim7_amended_frame_effects.2.1 Unit _ 7 1⟩

end Wind
